import Mathlib

/-!
Verification of the voice-channel presence controller in
`discord-ai-bot/discord_bot/bot.py`.

The bot joins a fixed voice channel on startup, retries once (after a
2-second sleep) when its own session is disconnected, and joins when a
member other than itself joins the target channel while no voice client
is held.

The embedding is a shallow one: the external client library is
represented by an `Env` record supplying the outcome of
`self.get_channel` (channel resolution) and of `channel.connect()`
(which may raise, modelled by `Except.error`).  Each handler is a pure
function from the environment and the bot state to `Except`-wrapped
results; a `.error` result models a Python exception escaping the
handler.  Side effects (print calls, sleeps, which channel ids were
resolved, how many join / connect attempts were made and from which
branch) are collected in an `Effects` record.
-/

namespace DiscordBot

/-- `VOICE_CHANNEL_ID = 1344418892948312154` from the source module. -/
def VOICE_CHANNEL_ID : Nat := 1344418892948312154

/-- A resolved voice channel, as returned by `self.get_channel`:
its id and its `name` (used in the success log line). -/
structure Channel where
  id : Nat
  name : String
deriving DecidableEq

/-- The external client library, as far as the controller observes it:
`getChannel` is `self.get_channel` (returns `none` when resolution
fails), `connect` is `channel.connect()` for the channel with the given
id — `.ok h` yields a voice-client handle `h`, `.error e` models the
platform raising an exception with message `e`. -/
structure Env where
  getChannel : Nat → Option Channel
  connect : Nat → Except String Nat

/-- The mutable state of `AIVoiceBot`: `self.user.id` (fixed after
login) and `self.voice_client` (`none` after `__init__`). -/
structure BotState where
  userId : Nat
  voice_client : Option Nat
deriving DecidableEq

/-- Observable side effects of one handler invocation: `log` the lines
printed, `sleeps` the arguments of `asyncio.sleep` calls,
`getChannelCalls` the ids passed to `self.get_channel`, `joinCalls` the
number of `connect_to_voice_channel` invocations, `retryJoins` /
`followJoins` the number of those made from the self-disconnect branch
resp. the member-follow branch of `on_voice_state_update`, and
`connectCalls` the number of `channel.connect()` attempts. -/
structure Effects where
  log : List String
  sleeps : List Nat
  getChannelCalls : List Nat
  joinCalls : Nat
  retryJoins : Nat
  followJoins : Nat
  connectCalls : Nat
deriving DecidableEq

/-- No effects. -/
def Effects.empty : Effects :=
  { log := [], sleeps := [], getChannelCalls := [], joinCalls := 0,
    retryJoins := 0, followJoins := 0, connectCalls := 0 }

/-- Sequential composition of effects. -/
def Effects.append (a b : Effects) : Effects :=
  { log := a.log ++ b.log
    sleeps := a.sleeps ++ b.sleeps
    getChannelCalls := a.getChannelCalls ++ b.getChannelCalls
    joinCalls := a.joinCalls + b.joinCalls
    retryJoins := a.retryJoins + b.retryJoins
    followJoins := a.followJoins + b.followJoins
    connectCalls := a.connectCalls + b.connectCalls }

/-- The body of the `try` block in `connect_to_voice_channel`:
`self.voice_client = await channel.connect()` followed by the success
print.  If `connect` raises, the exception propagates (`.error`),
carrying the effects performed so far (the connect attempt). -/
def connectTryBody (env : Env) (s : BotState) (channel : Channel) :
    Except (String × Effects) (BotState × Effects) :=
  match env.connect channel.id with
  | .error e => .error (e, { Effects.empty with connectCalls := 1 })
  | .ok handle =>
      .ok ({ s with voice_client := some handle },
        { Effects.empty with
            connectCalls := 1
            log := ["Connected to voice channel: " ++ channel.name] })

/-- `AIVoiceBot.connect_to_voice_channel`: resolve
`VOICE_CHANNEL_ID`; if resolution returns nothing, print and return;
otherwise attempt `channel.connect()` inside `try`, storing the handle
on success and printing the failure on `except Exception`.  The
invocation itself is recorded as one `joinCalls` and one
`getChannelCalls` entry. -/
def connect_to_voice_channel (env : Env) (s : BotState) :
    Except (String × Effects) (BotState × Effects) :=
  match env.getChannel VOICE_CHANNEL_ID with
  | none =>
      .ok (s, { Effects.empty with
        getChannelCalls := [VOICE_CHANNEL_ID], joinCalls := 1,
        log := ["Could not find voice channel with ID: " ++ toString VOICE_CHANNEL_ID] })
  | some channel =>
      match connectTryBody env s channel with
      | .ok (s1, eff1) =>
          .ok (s1, ({ Effects.empty with
            getChannelCalls := [VOICE_CHANNEL_ID], joinCalls := 1 }).append eff1)
      | .error (e, eff1) =>
          .ok (s, (({ Effects.empty with
            getChannelCalls := [VOICE_CHANNEL_ID], joinCalls := 1 }).append eff1).append
            { Effects.empty with log := ["Failed to connect to voice channel: " ++ e] })

/-- `AIVoiceBot.on_ready`: print the connected banner, then attempt the
initial join. -/
def on_ready (env : Env) (s : BotState) :
    Except (String × Effects) (BotState × Effects) :=
  match connect_to_voice_channel env s with
  | .ok (s1, eff1) =>
      .ok (s1, ({ Effects.empty with
        log := ["Bot connected as " ++ toString s.userId] }).append eff1)
  | .error (e, eff1) =>
      .error (e, ({ Effects.empty with
        log := ["Bot connected as " ++ toString s.userId] }).append eff1)

/-- A member as seen by `on_voice_state_update` (only `.id` is read). -/
structure Member where
  id : Nat
deriving DecidableEq

/-- A voice state (`before` / `after`): the id of the channel the
member is in, or `none` when in no channel.  (`after.channel.id` is
read via the `Option` payload.) -/
structure VoiceState where
  channel : Option Nat
deriving DecidableEq

/-- First `if` statement of `AIVoiceBot.on_voice_state_update`: if the
update is about the bot itself leaving a channel (`before.channel`
truthy, `after.channel` falsy), print, `asyncio.sleep(2)` and call
`connect_to_voice_channel`; joins issued here are tagged
`retryJoins`. -/
def selfDisconnectBranch (env : Env) (s : BotState) (member : Member)
    (before after : VoiceState) :
    Except (String × Effects) (BotState × Effects) :=
  if member.id == s.userId && before.channel.isSome && !after.channel.isSome then
    match connect_to_voice_channel env s with
    | .ok (s1, eff1) =>
        .ok (s1, ({ Effects.empty with
          log := ["Bot was disconnected, attempting to reconnect..."],
          sleeps := [2] }).append
          { eff1 with retryJoins := eff1.retryJoins + eff1.joinCalls })
    | .error (e, eff1) =>
        .error (e, ({ Effects.empty with
          log := ["Bot was disconnected, attempting to reconnect..."],
          sleeps := [2] }).append eff1)
  else .ok (s, Effects.empty)

/-- Second `if` statement of `AIVoiceBot.on_voice_state_update`, run on
the state `s1` left by the first: if no `voice_client` is held and the
member's new channel is the target channel and the member is not the
bot itself, call `connect_to_voice_channel`; joins issued here are
tagged `followJoins`.  `eff1` are the effects accumulated so far. -/
def followBranch (env : Env) (s1 : BotState) (eff1 : Effects) (member : Member)
    (after : VoiceState) :
    Except (String × Effects) (BotState × Effects) :=
  if !s1.voice_client.isSome && (after.channel == some VOICE_CHANNEL_ID) then
    if member.id != s1.userId then
      match connect_to_voice_channel env s1 with
      | .ok (s2, eff2) =>
          .ok (s2, eff1.append { eff2 with followJoins := eff2.followJoins + eff2.joinCalls })
      | .error (e, eff2) => .error (e, eff1.append eff2)
    else .ok (s1, eff1)
  else .ok (s1, eff1)

/-- `AIVoiceBot.on_voice_state_update`: the two `if` statements in
sequence, the second one reading the state written by the first. -/
def on_voice_state_update (env : Env) (s : BotState) (member : Member)
    (before after : VoiceState) :
    Except (String × Effects) (BotState × Effects) :=
  match selfDisconnectBranch env s member before after with
  | .error r => .error r
  | .ok (s1, eff1) => followBranch env s1 eff1 member after

/-- An event delivered by the client runtime to the registered
handlers. -/
inductive Event where
  | ready
  | voiceStateUpdate (member : Member) (before after : VoiceState)
deriving DecidableEq

/-- Dispatch one event to the matching handler. -/
def handleEvent (env : Env) (s : BotState) : Event →
    Except (String × Effects) (BotState × Effects)
  | .ready => on_ready env s
  | .voiceStateUpdate m b a => on_voice_state_update env s m b a

/-- Run a serialized sequence of events, threading the bot state and
accumulating effects.  (The `.error` branch models the run stopping at
an escaped exception; the handlers in fact never produce one.) -/
def runEvents (env : Env) (s : BotState) : List Event → BotState × Effects
  | [] => (s, Effects.empty)
  | e :: es =>
      match handleEvent env s e with
      | .ok (s1, eff1) =>
          ((runEvents env s1 es).1, eff1.append (runEvents env s1 es).2)
      | .error (_, eff1) => (s, eff1)

/-- The top-level actions of `main`, in order. -/
inductive MainAction where
  | printError
  | constructClient
  | runClient (token : String)
deriving DecidableEq

/-- `main`: if `TOKEN` is falsy (absent from the environment or the
empty string), print the error and return; otherwise construct the bot
and run it with the token. -/
def main : Option String → List MainAction
  | none => [MainAction.printError]
  | some t =>
      if t.isEmpty then [MainAction.printError]
      else [MainAction.constructClient, MainAction.runClient t]

/-! Characterization of `connect_to_voice_channel`. -/

/-- When channel resolution returns nothing, `connect_to_voice_channel`
prints the not-found line and returns with the state untouched. -/
theorem connect_getChannel_none (env : Env) (s : BotState)
    (h : env.getChannel VOICE_CHANNEL_ID = none) :
    connect_to_voice_channel env s =
      .ok (s, { Effects.empty with
        getChannelCalls := [VOICE_CHANNEL_ID], joinCalls := 1,
        log := ["Could not find voice channel with ID: " ++ toString VOICE_CHANNEL_ID] }) := by
  unfold connect_to_voice_channel
  rw [h]

/-- When resolution succeeds and `connect` succeeds,
`connect_to_voice_channel` stores the new handle and prints the
success line. -/
theorem connect_getChannel_some_ok (env : Env) (s : BotState) (ch : Channel) (handle : Nat)
    (h1 : env.getChannel VOICE_CHANNEL_ID = some ch)
    (h2 : env.connect ch.id = .ok handle) :
    connect_to_voice_channel env s =
      .ok ({ s with voice_client := some handle },
        { Effects.empty with
          log := ["Connected to voice channel: " ++ ch.name],
          getChannelCalls := [VOICE_CHANNEL_ID], joinCalls := 1, connectCalls := 1 }) := by
  unfold connect_to_voice_channel connectTryBody
  rw [h1]
  simp only [h2]
  rfl

/-- When resolution succeeds but `connect` raises, the exception is
caught, the failure line is printed and the state is untouched. -/
theorem connect_getChannel_some_err (env : Env) (s : BotState) (ch : Channel) (e : String)
    (h1 : env.getChannel VOICE_CHANNEL_ID = some ch)
    (h2 : env.connect ch.id = .error e) :
    connect_to_voice_channel env s =
      .ok (s, { Effects.empty with
        log := ["Failed to connect to voice channel: " ++ e],
        getChannelCalls := [VOICE_CHANNEL_ID], joinCalls := 1, connectCalls := 1 }) := by
  unfold connect_to_voice_channel connectTryBody
  rw [h1]
  simp only [h2]
  rfl

/-- `connect_to_voice_channel` never lets an exception escape, keeps
`userId`, never clears a set handle, counts as exactly one join call
from neither branch tag, sleeps never, and resolves exactly the
configured channel id. -/
theorem connect_spec (env : Env) (s : BotState) :
    ∃ s' eff, connect_to_voice_channel env s = .ok (s', eff) ∧
      s'.userId = s.userId ∧
      (s.voice_client.isSome = true → s'.voice_client.isSome = true) ∧
      eff.joinCalls = 1 ∧ eff.retryJoins = 0 ∧ eff.followJoins = 0 ∧
      eff.sleeps = [] ∧ eff.getChannelCalls = [VOICE_CHANNEL_ID] := by
  cases hg : env.getChannel VOICE_CHANNEL_ID with
  | none =>
      exact ⟨s, _, connect_getChannel_none env s hg,
        rfl, fun hh => hh, rfl, rfl, rfl, rfl, rfl⟩
  | some ch =>
      cases hc : env.connect ch.id with
      | ok handle =>
          exact ⟨_, _, connect_getChannel_some_ok env s ch handle hg hc,
            rfl, fun _ => rfl, rfl, rfl, rfl, rfl, rfl⟩
      | error e =>
          exact ⟨s, _, connect_getChannel_some_err env s ch e hg hc,
            rfl, fun hh => hh, rfl, rfl, rfl, rfl, rfl⟩

/-! Characterization of the two branches of `on_voice_state_update`. -/

/-- The self-disconnect branch never raises, keeps `userId`, never
clears a set handle, issues only retry-tagged joins. -/
theorem selfDisconnectBranch_spec (env : Env) (s : BotState) (m : Member)
    (b a : VoiceState) :
    ∃ s1 eff1, selfDisconnectBranch env s m b a = .ok (s1, eff1) ∧
      s1.userId = s.userId ∧
      (s.voice_client.isSome = true → s1.voice_client.isSome = true) ∧
      eff1.followJoins = 0 ∧
      eff1.joinCalls ≤ 1 := by
  unfold selfDisconnectBranch
  split
  · obtain ⟨s1, eff1, hc, hu, hv, hj, hr, hf, hsl, hg⟩ := connect_spec env s
    rw [hc]
    refine ⟨s1, _, rfl, hu, hv, ?_, ?_⟩
    · simp [Effects.append, Effects.empty, hf]
    · simp [Effects.append, Effects.empty, hj]
  · exact ⟨s, Effects.empty, rfl, rfl, fun hh => hh, rfl, by simp [Effects.empty]⟩

/-- When the handler holds a voice client, the follow branch does
nothing. -/
theorem followBranch_connected (env : Env) (s1 : BotState) (eff1 : Effects)
    (m : Member) (a : VoiceState) (h : s1.voice_client.isSome = true) :
    followBranch env s1 eff1 m a = .ok (s1, eff1) := by
  unfold followBranch
  rw [h]
  rfl

/-- When the update's `after` state has no channel, the follow branch
does nothing. -/
theorem followBranch_no_after_channel (env : Env) (s1 : BotState) (eff1 : Effects)
    (m : Member) (a : VoiceState) (h : a.channel = none) :
    followBranch env s1 eff1 m a = .ok (s1, eff1) := by
  unfold followBranch
  rw [h]
  simp

/-- Starting from no accumulated effects, the follow branch never
raises, adds at most one join call and no retry-tagged join. -/
theorem followBranch_empty_spec (env : Env) (s1 : BotState) (m : Member)
    (a : VoiceState) :
    ∃ s2 eff2, followBranch env s1 Effects.empty m a = .ok (s2, eff2) ∧
      eff2.joinCalls ≤ 1 ∧ eff2.retryJoins = 0 := by
  unfold followBranch
  split
  · split
    · obtain ⟨s2, eff2, hc, hu, hv, hj, hr, hf, hsl, hg⟩ := connect_spec env s1
      rw [hc]
      refine ⟨s2, _, rfl, ?_, ?_⟩
      · simp [Effects.append, Effects.empty, hj]
      · simp [Effects.append, Effects.empty, hr]
    · exact ⟨s1, Effects.empty, rfl, by simp [Effects.empty], rfl⟩
  · exact ⟨s1, Effects.empty, rfl, by simp [Effects.empty], rfl⟩

/-- One dispatched event, starting from a state that holds a voice
client: no exception, the client stays held, the user id is unchanged
and no follow-branch join is issued. -/
theorem handleEvent_connected (env : Env) (uid h : Nat) (ev : Event) :
    ∃ s' eff, handleEvent env ⟨uid, some h⟩ ev = .ok (s', eff) ∧
      s'.userId = uid ∧ s'.voice_client.isSome = true ∧ eff.followJoins = 0 := by
  cases ev with
  | ready =>
      unfold handleEvent on_ready
      obtain ⟨s', eff, hc, hu, hv, hj, hr, hf, hsl, hg⟩ := connect_spec env ⟨uid, some h⟩
      rw [hc]
      exact ⟨s', _, rfl, hu, hv rfl, by simp [Effects.append, Effects.empty, hf]⟩
  | voiceStateUpdate m b a =>
      simp only [handleEvent, on_voice_state_update]
      obtain ⟨s1, eff1, h1, hu1, hv1, hf1, hj1⟩ :=
        selfDisconnectBranch_spec env ⟨uid, some h⟩ m b a
      rw [h1]
      have hs1 : s1.voice_client.isSome = true := hv1 rfl
      exact ⟨s1, eff1, followBranch_connected env s1 eff1 m a hs1, hu1, hs1, hf1⟩

/-- The follow branch never raises. -/
theorem followBranch_ok (env : Env) (s1 : BotState) (eff1 : Effects) (m : Member)
    (a : VoiceState) :
    ∃ r, followBranch env s1 eff1 m a = .ok r := by
  unfold followBranch
  split
  · split
    · obtain ⟨s2, eff2, hc, -⟩ := connect_spec env s1
      rw [hc]
      exact ⟨_, rfl⟩
    · exact ⟨_, rfl⟩
  · exact ⟨_, rfl⟩

/-- The self-disconnect branch on the bot's own leave (`before` in a
channel, `after` in none): the branch fires, logging, sleeping 2 and
running `connect_to_voice_channel`, whose effects `eff1` satisfy the
`connect_spec` facts. -/
theorem selfDisconnectBranch_pos (env : Env) (uid b : Nat) (vc : Option Nat) :
    ∃ (s1 : BotState) (eff1 : Effects),
      selfDisconnectBranch env ⟨uid, vc⟩ ⟨uid⟩ ⟨some b⟩ ⟨none⟩ =
        .ok (s1, ({ Effects.empty with
          log := ["Bot was disconnected, attempting to reconnect..."],
          sleeps := [2] }).append
          { eff1 with retryJoins := eff1.retryJoins + eff1.joinCalls }) ∧
      s1.userId = uid ∧
      (vc.isSome = true → s1.voice_client.isSome = true) ∧
      eff1.joinCalls = 1 ∧ eff1.retryJoins = 0 ∧ eff1.followJoins = 0 ∧
      eff1.sleeps = [] ∧ eff1.getChannelCalls = [VOICE_CHANNEL_ID] := by
  obtain ⟨s1, eff1, hc, hu, hv, hj, hr, hf, hsl, hg⟩ := connect_spec env ⟨uid, vc⟩
  refine ⟨s1, eff1, ?_, hu, hv, hj, hr, hf, hsl, hg⟩
  unfold selfDisconnectBranch
  split
  · rw [hc]
  · rename_i hcond
    exact absurd (by simp) hcond

/-! The claims. -/

/-- C1 (counterexample): on a `SelfDisconnected` event about the bot's
own session with prior state connected (`voice_client = some 5`), when
the retried join cannot resolve the channel, the handler returns with
`voice_client` still `some 5`: the ConnectionHandle is never cleared to
the not-connected value, contrary to the claim. -/
theorem C1_counterexample :
    Except.map (fun r => r.1.voice_client)
        (on_voice_state_update ⟨fun _ => none, fun _ => Except.error "boom"⟩
          ⟨1, some 5⟩ ⟨1⟩ ⟨some 7⟩ ⟨none⟩) =
      Except.ok (some 5) ∧ some 5 ≠ (none : Option Nat) :=
  ⟨rfl, by decide⟩

/-- C1 (amended): on a `SelfDisconnected` event about the bot's own
session with prior state connected, the handler waits the fixed delay
of 2 time units and makes exactly one `joinChannel` call (from the
retry branch), but it does not clear the ConnectionHandle: the handle
remains set throughout. -/
theorem C1_retry_without_clearing (env : Env) (uid b h0 : Nat) :
    ∃ s' eff, on_voice_state_update env ⟨uid, some h0⟩ ⟨uid⟩ ⟨some b⟩ ⟨none⟩ =
        Except.ok (s', eff) ∧
      eff.sleeps = [2] ∧ eff.joinCalls = 1 ∧ eff.retryJoins = 1 ∧
      s'.voice_client.isSome = true := by
  obtain ⟨s1, eff1, hpos, hu, hv, hj, hr, hf, hsl, hg⟩ :=
    selfDisconnectBranch_pos env uid b (some h0)
  have heq : on_voice_state_update env ⟨uid, some h0⟩ ⟨uid⟩ ⟨some b⟩ ⟨none⟩ =
      .ok (s1, ({ Effects.empty with
        log := ["Bot was disconnected, attempting to reconnect..."],
        sleeps := [2] }).append
        { eff1 with retryJoins := eff1.retryJoins + eff1.joinCalls }) := by
    unfold on_voice_state_update
    rw [hpos]
    exact followBranch_no_after_channel env s1 _ ⟨uid⟩ ⟨none⟩ rfl
  refine ⟨s1, _, heq, ?_, ?_, ?_, hv rfl⟩
  · simp [Effects.append, Effects.empty, hsl]
  · simp [Effects.append, Effects.empty, hj]
  · simp [Effects.append, Effects.empty, hj, hr]

/-- C2: when channel resolution returns nothing, `joinChannel` performs
no connect call, logs the failure, and leaves the state (including the
ConnectionHandle) exactly as it was. -/
theorem C2_channel_not_found (env : Env) (s : BotState)
    (h : env.getChannel VOICE_CHANNEL_ID = none) :
    ∃ eff, connect_to_voice_channel env s = Except.ok (s, eff) ∧
      eff.connectCalls = 0 ∧
      eff.log = ["Could not find voice channel with ID: " ++ toString VOICE_CHANNEL_ID] :=
  ⟨_, connect_getChannel_none env s h, rfl, rfl⟩

/-- Witness for C2 at a concrete environment whose resolution fails. -/
theorem C2_witness :
    ∃ eff, connect_to_voice_channel ⟨fun _ => none, fun _ => Except.ok 0⟩ ⟨1, none⟩ =
        Except.ok (⟨1, none⟩, eff) ∧
      eff.connectCalls = 0 ∧
      eff.log = ["Could not find voice channel with ID: " ++ toString VOICE_CHANNEL_ID] :=
  C2_channel_not_found ⟨fun _ => none, fun _ => Except.ok 0⟩ ⟨1, none⟩ rfl

/-- C3: a `MemberJoinedTargetChannel` event whose member is the bot
itself never triggers a `joinChannel` call from the member-follow
branch (indeed no `joinChannel` call at all), in every state. -/
theorem C3_self_join_no_follow (env : Env) (uid : Nat) (vc : Option Nat) (b : VoiceState) :
    ∃ eff, on_voice_state_update env ⟨uid, vc⟩ ⟨uid⟩ b ⟨some VOICE_CHANNEL_ID⟩ =
        Except.ok (⟨uid, vc⟩, eff) ∧ eff.followJoins = 0 ∧ eff.joinCalls = 0 := by
  have h1 : selfDisconnectBranch env ⟨uid, vc⟩ ⟨uid⟩ b ⟨some VOICE_CHANNEL_ID⟩ =
      .ok (⟨uid, vc⟩, Effects.empty) := by
    unfold selfDisconnectBranch
    split
    · rename_i hcond
      simp at hcond
    · rfl
  have h2 : followBranch env ⟨uid, vc⟩ Effects.empty ⟨uid⟩ ⟨some VOICE_CHANNEL_ID⟩ =
      .ok (⟨uid, vc⟩, Effects.empty) := by
    unfold followBranch
    split
    · simp
    · rfl
  refine ⟨Effects.empty, ?_, rfl, rfl⟩
  unfold on_voice_state_update
  rw [h1]
  exact h2

/-- C4: a `MemberJoinedTargetChannel` event for a member other than the
bot, while a ConnectionHandle is already held, is a no-op: no join, no
connect, no log, state unchanged. -/
theorem C4_follow_noop_when_connected (env : Env) (uid h0 : Nat) (m : Member)
    (b : VoiceState) (hm : m.id ≠ uid) :
    on_voice_state_update env ⟨uid, some h0⟩ m b ⟨some VOICE_CHANNEL_ID⟩ =
      Except.ok (⟨uid, some h0⟩, Effects.empty) := by
  have h1 : selfDisconnectBranch env ⟨uid, some h0⟩ m b ⟨some VOICE_CHANNEL_ID⟩ =
      .ok (⟨uid, some h0⟩, Effects.empty) := by
    unfold selfDisconnectBranch
    split
    · rename_i hcond
      simp at hcond
    · rfl
  unfold on_voice_state_update
  rw [h1]
  exact followBranch_connected env ⟨uid, some h0⟩ Effects.empty m ⟨some VOICE_CHANNEL_ID⟩ rfl

/-- Witness for C4 at a concrete member distinct from the bot. -/
theorem C4_witness :
    on_voice_state_update ⟨fun _ => none, fun _ => Except.error "x"⟩ ⟨1, some 5⟩ ⟨2⟩ ⟨none⟩
        ⟨some VOICE_CHANNEL_ID⟩ = Except.ok (⟨1, some 5⟩, Effects.empty) :=
  C4_follow_noop_when_connected ⟨fun _ => none, fun _ => Except.error "x"⟩ 1 5 ⟨2⟩ ⟨none⟩
    (by decide)

/-- C5: when the channel resolves but the platform rejects the connect
request, the exception is caught and logged inside `joinChannel`, no
retry is initiated from that path (no sleep, no further join), and the
state — in particular the ConnectionHandle — is unchanged. -/
theorem C5_connect_rejected (env : Env) (s : BotState) (ch : Channel) (e : String)
    (h1 : env.getChannel VOICE_CHANNEL_ID = some ch)
    (h2 : env.connect ch.id = .error e) :
    ∃ eff, connect_to_voice_channel env s = Except.ok (s, eff) ∧
      eff.log = ["Failed to connect to voice channel: " ++ e] ∧
      eff.connectCalls = 1 ∧ eff.joinCalls = 1 ∧ eff.sleeps = [] :=
  ⟨_, connect_getChannel_some_err env s ch e h1 h2, rfl, rfl, rfl, rfl⟩

/-- Witness for C5 at a concrete environment that resolves the channel
but rejects the connect. -/
theorem C5_witness :
    ∃ eff, connect_to_voice_channel
        ⟨fun _ => some ⟨42, "general"⟩, fun _ => Except.error "Forbidden"⟩ ⟨1, none⟩ =
        Except.ok (⟨1, none⟩, eff) ∧
      eff.log = ["Failed to connect to voice channel: " ++ "Forbidden"] ∧
      eff.connectCalls = 1 ∧ eff.joinCalls = 1 ∧ eff.sleeps = [] :=
  C5_connect_rejected ⟨fun _ => some ⟨42, "general"⟩, fun _ => Except.error "Forbidden"⟩
    ⟨1, none⟩ ⟨42, "general"⟩ "Forbidden" rfl rfl

/-- C6: no exception escapes a handler invocation: dispatching any
event (`on_ready` or `on_voice_state_update` with any arguments, over
any environment and state) always produces an `ok` result. -/
theorem C6_no_exception_escapes (env : Env) (s : BotState) (ev : Event) :
    ∃ r, handleEvent env s ev = Except.ok r := by
  cases ev with
  | ready =>
      simp only [handleEvent, on_ready]
      obtain ⟨s', eff, hc, -⟩ := connect_spec env s
      rw [hc]
      exact ⟨_, rfl⟩
  | voiceStateUpdate m b a =>
      simp only [handleEvent, on_voice_state_update]
      obtain ⟨s1, eff1, hb, -⟩ := selfDisconnectBranch_spec env s m b a
      rw [hb]
      exact followBranch_ok env s1 eff1 m a

/-- C7: when the token is absent from the environment, `main` prints
the error and returns at once: the client is never constructed or run,
so no resolution or connect attempt is ever made. -/
theorem C7_missing_token : main none = [MainAction.printError] := rfl

/-- C8: once the bot holds a voice client, no handler ever resets it to
the not-connected value — after any sequence of events the handle is
still set — and consequently the member-follow branch never issues a
`joinChannel` call again for the rest of the run, even across further
disconnect events. -/
theorem C8_handle_never_cleared (env : Env) (uid h : Nat) (es : List Event) :
    (runEvents env ⟨uid, some h⟩ es).1.voice_client.isSome = true ∧
      (runEvents env ⟨uid, some h⟩ es).2.followJoins = 0 := by
  induction es generalizing h with
  | nil => exact ⟨rfl, rfl⟩
  | cons e es ih =>
      obtain ⟨s', eff, he, hu, hv, hf⟩ := handleEvent_connected env uid h e
      obtain ⟨h', hh⟩ := Option.isSome_iff_exists.mp hv
      have hs' : s' = ⟨uid, some h'⟩ := by
        cases s'
        simp only [BotState.mk.injEq]
        exact ⟨hu, hh⟩
      rw [hs'] at he
      have hrun : runEvents env ⟨uid, some h⟩ (e :: es) =
          ((runEvents env ⟨uid, some h'⟩ es).1,
            eff.append (runEvents env ⟨uid, some h'⟩ es).2) := by
        conv_lhs => rw [runEvents]
        rw [he]
      rw [hrun]
      refine ⟨(ih h').1, ?_⟩
      simp [Effects.append, hf, (ih h').2]

/-- C9: one delivered voice-state event issues at most one
`joinChannel` attempt: the two branches are mutually exclusive (the
retry branch needs the after-channel empty, the follow branch needs it
set), so at most one of them fires. -/
theorem C9_at_most_one_join (env : Env) (s : BotState) (m : Member) (b a : VoiceState) :
    ∃ s' eff, on_voice_state_update env s m b a = Except.ok (s', eff) ∧
      eff.joinCalls ≤ 1 ∧ (eff.retryJoins = 0 ∨ eff.followJoins = 0) := by
  unfold on_voice_state_update
  rcases ha : a.channel with _ | c
  · obtain ⟨s1, eff1, h1, hu1, hv1, hf1, hj1⟩ := selfDisconnectBranch_spec env s m b a
    rw [h1]
    exact ⟨s1, eff1, followBranch_no_after_channel env s1 eff1 m a ha, hj1, Or.inr hf1⟩
  · have h1 : selfDisconnectBranch env s m b a = .ok (s, Effects.empty) := by
      unfold selfDisconnectBranch
      split
      · rename_i hcond
        rw [ha] at hcond
        simp at hcond
      · rfl
    rw [h1]
    obtain ⟨s2, eff2, h2, hj2, hr2⟩ := followBranch_empty_spec env s m a
    exact ⟨s2, eff2, h2, hj2, Or.inl hr2⟩

/-- C10: the retry branch fires whenever the bot leaves any voice
channel — the channel left (`b`) is arbitrary, not only the target —
and the reconnect attempt always resolves the configured
`VOICE_CHANNEL_ID`. -/
theorem C10_retry_for_any_channel (env : Env) (uid b : Nat) (vc : Option Nat) :
    ∃ s' eff, on_voice_state_update env ⟨uid, vc⟩ ⟨uid⟩ ⟨some b⟩ ⟨none⟩ =
        Except.ok (s', eff) ∧
      eff.retryJoins = 1 ∧ eff.joinCalls = 1 ∧
      eff.getChannelCalls = [VOICE_CHANNEL_ID] ∧ eff.sleeps = [2] := by
  obtain ⟨s1, eff1, hpos, hu, hv, hj, hr, hf, hsl, hg⟩ :=
    selfDisconnectBranch_pos env uid b vc
  have heq : on_voice_state_update env ⟨uid, vc⟩ ⟨uid⟩ ⟨some b⟩ ⟨none⟩ =
      .ok (s1, ({ Effects.empty with
        log := ["Bot was disconnected, attempting to reconnect..."],
        sleeps := [2] }).append
        { eff1 with retryJoins := eff1.retryJoins + eff1.joinCalls }) := by
    unfold on_voice_state_update
    rw [hpos]
    exact followBranch_no_after_channel env s1 _ ⟨uid⟩ ⟨none⟩ rfl
  refine ⟨s1, _, heq, ?_, ?_, ?_, ?_⟩
  · simp [Effects.append, Effects.empty, hj, hr]
  · simp [Effects.append, Effects.empty, hj]
  · simp [Effects.append, Effects.empty, hg]
  · simp [Effects.append, Effects.empty, hsl]

end DiscordBot
